import Mathlib

/-!
Verification of the BrainPlus attribution-and-fraud core.

The development shallowly embeds the two components of the backend that
carry real logic:

* `check_fraud_score` from `backend/app/core/fraud_detection.py` — the
  Risk Scorer.  Python `datetime` timestamps are modelled as rational
  numbers of seconds; `timedelta(hours=24)` is `24 * 60 * 60` seconds and
  `timedelta(hours=1)` is `60 * 60` seconds.  The module-level dict
  `event_tracking` is modelled as a function `String → Option (List ℚ)`
  threaded in and out of the call.
* `attribution_redirect` / `create_redirect_mapping` from
  `backend/app/api/v1/attribution.py` — the Redirect Ledger.  The
  module-level dict `redirect_store` is modelled as a function
  `String → Option RedirectMapping`; `urllib.parse.urlencode` (with its
  default `quote_plus` escaping of UTF-8 bytes) is embedded character by
  character.
* `record_deal_click` from `backend/app/api/v1/deals.py`, together with a
  full embedding of the MD5 digest it uses to derive its short id.
-/

namespace BrainPlus

/-! ### Risk Scorer: `backend/app/core/fraud_detection.py` -/

/-- The module-level dict `event_tracking : Dict[str, list]`: per
anonymous id, the recorded event timestamps (in rational seconds). -/
abbrev EventTracking : Type := String → Option (List ℚ)

/-- The velocity band: `if events_per_hour > 100: score += 40 elif
events_per_hour > 50: score += 20`. -/
def velocity_component (events_per_hour : Nat) : Int :=
  if events_per_hour > 100 then 40
  else if events_per_hour > 50 then 20
  else 0

/-- The batch-size check: `if num_events > 80: score += 10`. -/
def batch_component (num_events : Int) : Int :=
  if num_events > 80 then 10 else 0

/-- The stubbed behavioral-entropy term: `behavioral_score = 0`. -/
def behavioral_score : Int := 0

/-- The inert fingerprint term: `fingerprint_score = 0`. -/
def fingerprint_score : Int := 0

/-- The successive inter-event gaps:
`[(h[i] - h[i-1]).total_seconds() for i in range(1, len(h))]`. -/
def intervals (history : List ℚ) : List ℚ :=
  List.zipWith (fun a b => a - b) history.tail history

/-- The variance computation:
`variance = sum((x - mean_interval) ** 2 for x in intervals) / len(intervals)`
with `mean_interval = sum(intervals) / len(intervals)`. -/
def variance_of (ivs : List ℚ) : ℚ :=
  let mean_interval := ivs.sum / (ivs.length : ℚ)
  ((ivs.map fun x => (x - mean_interval) ^ 2).sum) / (ivs.length : ℚ)

/-- The timing-pattern block: only when the pruned history has more than
10 entries, and the interval list is nonempty, add 20 if the variance of
the successive gaps is below 1.0 s². -/
def timing_component (history : List ℚ) : Int :=
  if history.length > 10 then
    let ivs := intervals history
    if ivs ≠ [] then
      if variance_of ivs < 1 then 20 else 0
    else 0
  else 0

/-- The scorer `check_fraud_score(anonymous_id, num_events)`: append `now`, prune
entries 24 h or older, then sum the velocity, batch-size, behavioral,
timing and fingerprint contributions and return `min(score, 100)`
together with the updated `event_tracking`. -/
def check_fraud_score (anonymous_id : String) (num_events : Int)
    (now : ℚ) (tracking : EventTracking) : Int × EventTracking :=
  let history := (tracking anonymous_id).getD []
  let appended := history ++ [now]
  let pruned := appended.filter fun ts => now - ts < 24 * 60 * 60
  let recent_events := pruned.filter fun ts => now - ts < 60 * 60
  let events_per_hour := recent_events.length
  let score :=
    velocity_component events_per_hour
    + batch_component num_events
    + behavioral_score
    + timing_component pruned
    + fingerprint_score
  (min score 100,
   fun k => if k = anonymous_id then some pruned else tracking k)

/-! ### Helper lemmas about the scoring components -/

lemma velocity_component_cases (e : Nat) :
    velocity_component e = 0 ∨ velocity_component e = 20 ∨ velocity_component e = 40 := by
  unfold velocity_component
  split
  · exact Or.inr (Or.inr rfl)
  · split
    · exact Or.inr (Or.inl rfl)
    · exact Or.inl rfl

lemma velocity_component_nonneg (e : Nat) : 0 ≤ velocity_component e := by
  rcases velocity_component_cases e with h | h | h <;> omega

lemma velocity_component_le (e : Nat) : velocity_component e ≤ 40 := by
  rcases velocity_component_cases e with h | h | h <;> omega

lemma batch_component_nonneg (n : Int) : 0 ≤ batch_component n := by
  unfold batch_component; split <;> norm_num

lemma timing_component_cases (l : List ℚ) :
    timing_component l = 0 ∨ timing_component l = 20 := by
  unfold timing_component
  dsimp only
  split
  · split
    · split
      · exact Or.inr rfl
      · exact Or.inl rfl
    · exact Or.inl rfl
  · exact Or.inl rfl

lemma timing_component_nonneg (l : List ℚ) : 0 ≤ timing_component l := by
  rcases timing_component_cases l with h | h <;> omega

lemma intervals_length (l : List ℚ) : (intervals l).length = l.length - 1 := by
  unfold intervals
  rw [List.length_zipWith, List.length_tail]
  omega

lemma intervals_replicate (n : Nat) (a : ℚ) :
    intervals (List.replicate n a) = List.replicate (n - 1) 0 := by
  unfold intervals
  rw [List.tail_replicate, List.zipWith_replicate]
  have : a - a = 0 := sub_self a
  rw [this]
  congr 1
  omega

lemma variance_of_replicate (n : Nat) (c : ℚ) :
    variance_of (List.replicate (n + 1) c) = 0 := by
  have hmean : ((n + 1) • c) / ((n + 1 : Nat) : ℚ) = c := by
    rw [nsmul_eq_mul]
    push_cast
    field_simp
  unfold variance_of
  dsimp only
  simp only [List.sum_replicate, List.length_replicate, List.map_replicate]
  rw [hmean, sub_self]
  simp

/-- C1: for every identity key, batch size and prior event-history state,
`check_fraud_score` returns an integer in the closed interval
`[0, 100]`: the sum of the contributions is clamped before return. -/
theorem C1_score_in_range (anonymous_id : String) (num_events : Int)
    (now : ℚ) (tracking : EventTracking) :
    0 ≤ (check_fraud_score anonymous_id num_events now tracking).1 ∧
    (check_fraud_score anonymous_id num_events now tracking).1 ≤ 100 := by
  unfold check_fraud_score
  refine ⟨le_min ?_ (by norm_num), min_le_right _ _⟩
  have h1 := velocity_component_nonneg
    ((((tracking anonymous_id).getD [] ++ [now]).filter fun ts =>
        now - ts < 24 * 60 * 60).filter fun ts => now - ts < 60 * 60).length
  have h2 := batch_component_nonneg num_events
  have h3 := timing_component_nonneg
    (((tracking anonymous_id).getD [] ++ [now]).filter fun ts =>
        now - ts < 24 * 60 * 60)
  unfold behavioral_score fingerprint_score
  omega

/-- C3: the velocity cutoffs are exact (100 events in the trailing hour
adds 20, not 40; 101 adds 40; 50 adds 0; any count in `(50, 100]` adds
20), the two velocity bands are mutually exclusive, the batch-size term
adds 10 exactly when the batch size exceeds 80, and both the 40-point
band and the batch term can fire on the same call (a concrete call with
101 prior events and batch size 81 scores 40 + 10 + 20 = 70). -/
theorem C3_velocity_and_batch :
    velocity_component 100 = 20 ∧
    velocity_component 101 = 40 ∧
    velocity_component 50 = 0 ∧
    (∀ c : Nat, 50 < c → c ≤ 100 → velocity_component c = 20) ∧
    (∀ c : Nat, velocity_component c = 0 ∨ velocity_component c = 20 ∨
      velocity_component c = 40) ∧
    (∀ n : Int, batch_component n = 10 ↔ 80 < n) ∧
    (check_fraud_score "u1" 81 0
      (fun k => if k = "u1" then some (List.replicate 101 (0 : ℚ)) else none)).1 = 70 := by
  refine ⟨by decide, by decide, by decide, ?_, velocity_component_cases, ?_, ?_⟩
  · intro c h1 h2
    unfold velocity_component
    rw [if_neg (by omega), if_pos (by omega)]
  · intro n
    unfold batch_component
    constructor
    · intro h
      by_contra hn
      rw [if_neg hn] at h
      norm_num at h
    · intro h
      rw [if_pos h]
  · have hrep : List.replicate 101 (0 : ℚ) ++ [(0 : ℚ)] = List.replicate 102 (0 : ℚ) :=
      (List.replicate_succ' 101 0).symm
    have hfilter : ∀ b : ℚ, 0 < b →
        (List.replicate 102 (0 : ℚ)).filter (fun ts => decide ((0 : ℚ) - ts < b)) =
          List.replicate 102 (0 : ℚ) := by
      intro b hb
      rw [List.filter_replicate, if_pos]
      simpa using hb
    have htiming : timing_component (List.replicate 102 (0 : ℚ)) = 20 := by
      unfold timing_component
      dsimp only
      rw [intervals_replicate]
      rw [show (102 - 1 : ℕ) = 100 + 1 from rfl]
      rw [if_pos (by simp), if_pos (by simp),
        if_pos (by rw [variance_of_replicate]; norm_num)]
    simp only [check_fraud_score]
    rw [if_pos trivial]
    simp only [Option.getD_some]
    rw [hrep, hfilter _ (by norm_num), hfilter _ (by norm_num), htiming,
      List.length_replicate]
    unfold behavioral_score fingerprint_score
    decide

/-- Witness for C3: a count of 60 events in the trailing hour lies in the
20-point band. -/
theorem C3_witness : velocity_component 60 = 20 :=
  C3_velocity_and_batch.2.2.2.1 60 (by decide) (by decide)

/-- C4: the timing-regularity term adds exactly 20 iff the pruned history
has more than 10 entries and the variance of the successive gaps is
strictly below 1; with 10 or fewer entries it is 0 regardless of the
variance, with variance at least 1 it is 0, and 11 events spaced at exact
5-second intervals get the +20. -/
theorem C4_timing_regularity :
    (∀ h : List ℚ, 10 < h.length →
      (timing_component h = 20 ↔ variance_of (intervals h) < 1)) ∧
    (∀ h : List ℚ, h.length ≤ 10 → timing_component h = 0) ∧
    (∀ h : List ℚ, 10 < h.length → 1 ≤ variance_of (intervals h) →
      timing_component h = 0) ∧
    timing_component [0, 5, 10, 15, 20, 25, 30, 35, 40, 45, 50] = 20 ∧
    variance_of (intervals [0, 5, 10, 15, 20, 25, 30, 35, 40, 45, 50]) = 0 := by
  have hiff : ∀ h : List ℚ, 10 < h.length →
      (timing_component h = 20 ↔ variance_of (intervals h) < 1) := by
    intro h hlen
    have hne : intervals h ≠ [] := by
      rw [← List.length_pos, intervals_length]
      omega
    unfold timing_component
    dsimp only
    rw [if_pos hlen, if_pos hne]
    split
    · simp_all
    · simp_all
  have hfive : intervals [0, 5, 10, 15, 20, 25, 30, 35, 40, 45, 50] =
      List.replicate 10 (5 : ℚ) := by
    unfold intervals
    norm_num [List.replicate]
  refine ⟨hiff, ?_, ?_, ?_, ?_⟩
  · intro h hlen
    unfold timing_component
    dsimp only
    rw [if_neg (by omega)]
  · intro h hlen hvar
    have := hiff h hlen
    rcases timing_component_cases h with h0 | h20
    · exact h0
    · exfalso
      have := (this.mp h20)
      linarith
  · rw [hiff _ (by norm_num), hfive]
    show variance_of (List.replicate (9 + 1) (5 : ℚ)) < 1
    rw [variance_of_replicate]
    norm_num
  · rw [hfive]
    show variance_of (List.replicate (9 + 1) (5 : ℚ)) = 0
    rw [variance_of_replicate]

/-- Witness for C4: the empty history contributes 0, and for the concrete
11-entry history at 5-second spacing the +20 is equivalent to its gap
variance being below 1. -/
theorem C4_witness :
    timing_component ([] : List ℚ) = 0 ∧
    (timing_component [0, 5, 10, 15, 20, 25, 30, 35, 40, 45, 50] = 20 ↔
      variance_of (intervals [0, 5, 10, 15, 20, 25, 30, 35, 40, 45, 50]) < 1) :=
  ⟨C4_timing_regularity.2.1 [] (by decide),
   C4_timing_regularity.1 _ (by decide)⟩

/-- C5: after every call, the stored history for the scored identity is
exactly the old history plus the single appended "now", filtered to the
trailing 24-hour window; every stored entry is strictly younger than
24 h; other identities' histories are untouched; an entry 24 h + 1 s old
is excluded and an entry 23 h 59 m 59 s old is retained. -/
theorem C5_history_pruned (anonymous_id : String) (num_events : Int)
    (now : ℚ) (tracking : EventTracking) :
    ((check_fraud_score anonymous_id num_events now tracking).2 anonymous_id =
      some (((tracking anonymous_id).getD [] ++ [now]).filter fun ts =>
        now - ts < 24 * 60 * 60)) ∧
    (∀ ts ∈ ((check_fraud_score anonymous_id num_events now tracking).2
        anonymous_id).getD [], now - ts < 24 * 60 * 60) ∧
    (∀ k, k ≠ anonymous_id →
      (check_fraud_score anonymous_id num_events now tracking).2 k = tracking k) ∧
    (∀ ts : ℚ, now - ts = 86401 →
      ts ∉ ((check_fraud_score anonymous_id num_events now tracking).2
        anonymous_id).getD []) ∧
    (∀ ts ∈ (tracking anonymous_id).getD [], now - ts = 86399 →
      ts ∈ ((check_fraud_score anonymous_id num_events now tracking).2
        anonymous_id).getD []) := by
  have hstore : (check_fraud_score anonymous_id num_events now tracking).2 anonymous_id =
      some (((tracking anonymous_id).getD [] ++ [now]).filter fun ts =>
        now - ts < 24 * 60 * 60) := by
    unfold check_fraud_score
    simp
  refine ⟨hstore, ?_, ?_, ?_, ?_⟩
  · intro ts hts
    rw [hstore] at hts
    simp only [Option.getD_some, List.mem_filter, decide_eq_true_eq] at hts
    exact hts.2
  · intro k hk
    unfold check_fraud_score
    simp [if_neg hk]
  · intro ts h24 hmem
    rw [hstore] at hmem
    simp only [Option.getD_some, List.mem_filter, decide_eq_true_eq] at hmem
    rw [h24] at hmem
    norm_num at hmem
  · intro ts hmem h24
    rw [hstore]
    simp only [Option.getD_some, List.mem_filter, decide_eq_true_eq]
    refine ⟨List.mem_append_left _ hmem, ?_⟩
    rw [h24]
    norm_num

/-- Witness for C5: an entry exactly 86401 s old is dropped, an entry
exactly 86399 s old is kept, and an unrelated key is left untouched. -/
theorem C5_witness :
    ((0 : ℚ) ∉ ((check_fraud_score "u" 0 86401 (fun _ => none)).2 "u").getD []) ∧
    ((0 : ℚ) ∈ ((check_fraud_score "u" 0 86399 (fun _ => some [0])).2 "u").getD []) ∧
    ((check_fraud_score "u" 0 0 (fun _ => none)).2 "v" = none) :=
  ⟨(C5_history_pruned "u" 0 86401 (fun _ => none)).2.2.2.1 0 (sub_zero 86401),
   (C5_history_pruned "u" 0 86399 (fun _ => some [0])).2.2.2.2 0
     (List.mem_singleton.mpr rfl) (sub_zero 86399),
   (C5_history_pruned "u" 0 0 (fun _ => none)).2.2.1 "v" (by decide)⟩

/-- C9: a negative batch size scores exactly like batch size 0 — same
returned score and the same updated event history. -/
theorem C9_negative_batch (anonymous_id : String) (now : ℚ)
    (tracking : EventTracking) (n : Int) (hn : n < 0) :
    check_fraud_score anonymous_id n now tracking =
      check_fraud_score anonymous_id 0 now tracking := by
  unfold check_fraud_score
  have hb : batch_component n = batch_component 0 := by
    unfold batch_component
    rw [if_neg (by omega), if_neg (by omega)]
  rw [hb]

/-- Witness for C9: batch size −5 behaves exactly like batch size 0. -/
theorem C9_witness :
    check_fraud_score "u" (-5) 0 (fun _ => none) =
      check_fraud_score "u" 0 0 (fun _ => none) :=
  C9_negative_batch "u" 0 (fun _ => none) (-5) (by decide)

/-! ### Redirect Ledger: `backend/app/api/v1/attribution.py` -/

/-- A `redirect_store` entry: `{"url": full_url, "created_at": "timestamp"}`. -/
structure RedirectMapping where
  url : String
  created_at : String
  deriving DecidableEq

/-- The module-level dict `redirect_store`. -/
abbrev RedirectStore : Type := String → Option RedirectMapping

/-- The HTTP response produced by the redirect endpoint. -/
structure RedirectResponse where
  url : String
  status_code : Nat
  deriving DecidableEq

/-- The UTF-8 encoding of a character, as a list of byte values. -/
def utf8_bytes (c : Char) : List Nat :=
  let n := c.toNat
  if n < 128 then [n]
  else if n < 2048 then [192 + n / 64, 128 + n % 64]
  else if n < 65536 then [224 + n / 4096, 128 + n / 64 % 64, 128 + n % 64]
  else [240 + n / 262144, 128 + n / 4096 % 64, 128 + n / 64 % 64, 128 + n % 64]

/-- An uppercase hexadecimal digit, as used by percent-encoding. -/
def hex_upper (n : Nat) : Char :=
  if n < 10 then Char.ofNat (48 + n) else Char.ofNat (55 + n)

/-- Percent-encode one byte (`%XX` with uppercase hex). -/
def percent_byte (b : Nat) : List Char :=
  ['%', hex_upper (b / 16), hex_upper (b % 16)]

/-- Embedding of `urllib.parse.quote_plus` on one character: ASCII alphanumerics and
`_`, `.`, `-`, `~` are kept, a space becomes `+`, anything else is
percent-encoded byte by byte. -/
def quote_plus_char (c : Char) : List Char :=
  if c.isAlphanum ∨ c = '_' ∨ c = '.' ∨ c = '-' ∨ c = '~' then [c]
  else if c = ' ' then ['+']
  else ((utf8_bytes c).map percent_byte).flatten

/-- Embedding of `urllib.parse.quote_plus` on a string. -/
def quote_plus (s : String) : String :=
  ⟨(s.data.map quote_plus_char).flatten⟩

/-- One `key=value` pair of the encoded query string. -/
def encode_pair (p : String × String) : String :=
  quote_plus p.1 ++ "=" ++ quote_plus p.2

/-- The ampersand join performed by `urllib.parse.urlencode`. -/
def join_amp : List String → String
  | [] => ""
  | [p] => p
  | p :: rest => p ++ "&" ++ join_amp rest

/-- Embedding of `urllib.parse.urlencode(affiliate_params)` for an ordered mapping. -/
def urlencode (params : List (String × String)) : String :=
  join_amp (params.map encode_pair)

/-- Minting: `create_redirect_mapping(short_id, merchant_url, affiliate_params)`:
build `full_url = f"{merchant_url}?{params_str}"` and store
`{short_id: {"url": full_url, "created_at": "timestamp"}}`, returning the
short id together with the updated store. -/
def create_redirect_mapping (short_id : String) (merchant_url : String)
    (affiliate_params : List (String × String)) (store : RedirectStore) :
    String × RedirectStore :=
  let params_str := urlencode affiliate_params
  let full_url := merchant_url ++ "?" ++ params_str
  (short_id,
   fun k => if k = short_id then
      some { url := full_url, created_at := "timestamp" }
    else store k)

/-- The mock fallback used when a token is not in the store:
`f"https://example.com?aff_id=datapay&ref={short_id}"`. -/
def fallback_url (short_id : String) : String :=
  "https://example.com?aff_id=datapay&ref=" ++ short_id

/-- Resolution: `attribution_redirect(short_id)`: look the token up; on a miss
redirect to the fallback URL, on a hit redirect to the stored URL; either
way answer a 302 and leave the store untouched. -/
def attribution_redirect (short_id : String) (store : RedirectStore) :
    RedirectResponse × RedirectStore :=
  match store short_id with
  | none => ({ url := fallback_url short_id, status_code := 302 }, store)
  | some mapping => ({ url := mapping.url, status_code := 302 }, store)

/-! ### Helper lemmas about the Redirect Ledger -/

lemma infix_append_of_infix {xs ys zs : List Char} (h : xs <:+: ys) :
    xs <:+: zs ++ ys := by
  obtain ⟨s, t, hst⟩ := h
  exact ⟨zs ++ s, t, by rw [← hst]; simp⟩

lemma join_amp_cons_cons (p q : String) (rest : List String) :
    join_amp (p :: q :: rest) = p ++ "&" ++ join_amp (q :: rest) := rfl

lemma mem_join_amp_infix (l : List String) (s : String) (hs : s ∈ l) :
    s.data <:+: (join_amp l).data := by
  induction l with
  | nil => cases hs
  | cons p rest ih =>
    cases rest with
    | nil =>
      rw [List.mem_singleton] at hs
      subst hs
      exact List.infix_refl _
    | cons q rest' =>
      rw [join_amp_cons_cons, String.data_append, String.data_append]
      rcases List.mem_cons.mp hs with h | h
      · subst h
        exact ⟨[], "&".data ++ (join_amp (q :: rest')).data, by simp⟩
      · exact infix_append_of_infix (ih h)

lemma create_then_lookup (short_id merchant_url : String)
    (params : List (String × String)) (store : RedirectStore) :
    (create_redirect_mapping short_id merchant_url params store).2 short_id =
      some { url := merchant_url ++ "?" ++ urlencode params,
             created_at := "timestamp" } := by
  unfold create_redirect_mapping
  simp

/-- C2: minting a mapping and immediately resolving the same token yields
exactly the base URL with the affiliate parameters appended as the
query-encoded string built at mint time, and the resolved URL contains
every `key=value` pair supplied at mint time. -/
theorem C2_mint_then_resolve (short_id merchant_url : String)
    (params : List (String × String)) (store : RedirectStore) :
    ((attribution_redirect short_id
        (create_redirect_mapping short_id merchant_url params store).2).1.url =
      merchant_url ++ "?" ++ urlencode params) ∧
    (∀ p ∈ params, (encode_pair p).data <:+:
      (attribution_redirect short_id
        (create_redirect_mapping short_id merchant_url params store).2).1.url.data) := by
  have hurl : (attribution_redirect short_id
      (create_redirect_mapping short_id merchant_url params store).2).1.url =
      merchant_url ++ "?" ++ urlencode params := by
    unfold attribution_redirect
    rw [create_then_lookup]
  refine ⟨hurl, ?_⟩
  intro p hp
  rw [hurl]
  have h1 : (encode_pair p).data <:+: (urlencode params).data :=
    mem_join_amp_infix _ _ (List.mem_map_of_mem encode_pair hp)
  rw [String.data_append]
  exact infix_append_of_infix h1

/-- Witness for C2: a minted parameter pair (with a space and a slash to
exercise the encoding) appears in the resolved URL. -/
theorem C2_witness :
    (("a b", "c/d") ∈ [(("a b" : String), ("c/d" : String))]) ∧
    (encode_pair ("a b", "c/d")).data <:+:
      (attribution_redirect "tok"
        (create_redirect_mapping "tok" "https://m.example" [("a b", "c/d")]
          (fun _ => none)).2).1.url.data :=
  ⟨List.mem_singleton.mpr rfl,
   (C2_mint_then_resolve "tok" "https://m.example" [("a b", "c/d")]
      (fun _ => none)).2 _ (List.mem_singleton.mpr rfl)⟩

/-- C6: resolving a token that is absent from the store does not fail: it
answers a 302 redirect to the fallback destination URL. -/
theorem C6_unknown_token_fallback (short_id : String) (store : RedirectStore)
    (habsent : store short_id = none) :
    attribution_redirect short_id store =
      ({ url := fallback_url short_id, status_code := 302 }, store) := by
  unfold attribution_redirect
  rw [habsent]

/-- Witness for C6: resolving `"ghost"` against the empty store redirects
to the fallback URL. -/
theorem C6_witness :
    attribution_redirect "ghost" (fun _ => none) =
      ({ url := fallback_url "ghost", status_code := 302 }, fun _ => none) :=
  C6_unknown_token_fallback "ghost" (fun _ => none) rfl

/-- C7 counterexample: minting twice with the same token silently
overwrites the live mapping — after the second mint the token resolves to
the second URL, not the first one, so minting does replace a live
mapping's stored URL (no regeneration happens). -/
theorem C7_counterexample :
    (attribution_redirect "tok1"
        (create_redirect_mapping "tok1" "https://b.example" [("y", "2")]
          ((create_redirect_mapping "tok1" "https://a.example" [("x", "1")]
            (fun _ => none)).2)).2).1.url = "https://b.example?y=2" ∧
    (attribution_redirect "tok1"
        ((create_redirect_mapping "tok1" "https://a.example" [("x", "1")]
          (fun _ => none)).2)).1.url = "https://a.example?x=1" ∧
    ("https://b.example?y=2" : String) ≠ "https://a.example?x=1" := by
  refine ⟨?_, ?_, by decide⟩
  · unfold attribution_redirect
    rw [create_then_lookup]
    decide
  · unfold attribution_redirect
    rw [create_then_lookup]
    decide

/-- C7 as amended: `create_redirect_mapping` performs no uniqueness check
at all — even when the token already maps to a live mapping, the new
mapping is stored under it unconditionally, replacing the old URL. -/
theorem C7_amended_overwrite (short_id merchant_url : String)
    (params : List (String × String)) (store : RedirectStore)
    (m : RedirectMapping) (_hlive : store short_id = some m) :
    (create_redirect_mapping short_id merchant_url params store).2 short_id =
      some { url := merchant_url ++ "?" ++ urlencode params,
             created_at := "timestamp" } :=
  create_then_lookup short_id merchant_url params store

/-- Witness for C7 as amended: overwriting a concrete live mapping. -/
theorem C7_witness :
    (create_redirect_mapping "tok" "https://b.example" [] (fun _ =>
      some { url := "https://a.example?x=1", created_at := "timestamp" })).2 "tok" =
      some { url := "https://b.example" ++ "?" ++ urlencode [],
             created_at := "timestamp" } :=
  C7_amended_overwrite "tok" "https://b.example" [] _
    { url := "https://a.example?x=1", created_at := "timestamp" } rfl

/-- C8: resolution is read-only — it returns the store unchanged, a
stored token always resolves to its stored URL, and iterating resolution
any number of times leaves the store as it was. -/
theorem C8_resolve_frame (short_id : String) (store : RedirectStore) :
    ((attribution_redirect short_id store).2 = store) ∧
    (∀ m : RedirectMapping, store short_id = some m →
      (attribution_redirect short_id store).1.url = m.url) ∧
    (∀ n : Nat, (fun s => (attribution_redirect short_id s).2)^[n] store = store) := by
  have hframe : ∀ s : RedirectStore, (attribution_redirect short_id s).2 = s := by
    intro s
    unfold attribution_redirect
    cases s short_id <;> rfl
  refine ⟨hframe store, ?_, ?_⟩
  · intro m hm
    unfold attribution_redirect
    rw [hm]
  · intro n
    induction n with
    | zero => rfl
    | succ k ih =>
      rw [Function.iterate_succ_apply, hframe]
      exact ih

/-- Witness for C8: a stored token resolves to its stored URL and the
store survives resolution unchanged. -/
theorem C8_witness :
    (attribution_redirect "t"
      (fun _ => some { url := "https://m.example?x=1", created_at := "timestamp" })).1.url =
      "https://m.example?x=1" :=
  (C8_resolve_frame "t"
    (fun _ => some { url := "https://m.example?x=1", created_at := "timestamp" })).2.1
    { url := "https://m.example?x=1", created_at := "timestamp" } rfl

/-! ### Deal click endpoint: `backend/app/api/v1/deals.py`

`record_deal_click` derives its short id as
`hashlib.md5(f"{deal_id}{x_anonymous_id}".encode()).hexdigest()[:8]`, so
the MD5 digest is embedded in full below (RFC 1321). -/

/-- The UTF-8 encoding of a string (`str.encode()`), as byte values. -/
def utf8_encode (s : String) : List Nat :=
  (s.data.map utf8_bytes).flatten

/-- The 64 per-round shift amounts of MD5. -/
def md5_s : List Nat :=
  [7, 12, 17, 22, 7, 12, 17, 22, 7, 12, 17, 22, 7, 12, 17, 22,
   5, 9, 14, 20, 5, 9, 14, 20, 5, 9, 14, 20, 5, 9, 14, 20,
   4, 11, 16, 23, 4, 11, 16, 23, 4, 11, 16, 23, 4, 11, 16, 23,
   6, 10, 15, 21, 6, 10, 15, 21, 6, 10, 15, 21, 6, 10, 15, 21]

/-- The 64 sine-derived round constants of MD5. -/
def md5_K : List Nat :=
  [3614090360, 3905402710, 606105819, 3250441966,
   4118548399, 1200080426, 2821735955, 4249261313,
   1770035416, 2336552879, 4294925233, 2304563134,
   1804603682, 4254626195, 2792965006, 1236535329,
   4129170786, 3225465664, 643717713, 3921069994,
   3593408605, 38016083, 3634488961, 3889429448,
   568446438, 3275163606, 4107603335, 1163531501,
   2850285829, 4243563512, 1735328473, 2368359562,
   4294588738, 2272392833, 1839030562, 4259657740,
   2763975236, 1272893353, 4139469664, 3200236656,
   681279174, 3936430074, 3572445317, 76029189,
   3654602809, 3873151461, 530742520, 3299628645,
   4096336452, 1126891415, 2878612391, 4237533241,
   1700485571, 2399980690, 4293915773, 2240044497,
   1873313359, 4264355552, 2734768916, 1309151649,
   4149444226, 3174756917, 718787259, 3951481745]

/-- Left rotation of a 32-bit word below `2 ^ 32`. -/
def rotl32 (x n : Nat) : Nat :=
  (x * 2 ^ n + x / 2 ^ (32 - n)) % 2 ^ 32

/-- A 64-bit value as 8 little-endian bytes. -/
def toLE8 (n : Nat) : List Nat :=
  [n % 256, n / 256 % 256, n / 65536 % 256, n / 16777216 % 256,
   n / 4294967296 % 256, n / 1099511627776 % 256,
   n / 281474976710656 % 256, n / 72057594037927936 % 256]

/-- A 32-bit word as 4 little-endian bytes. -/
def toLE4 (n : Nat) : List Nat :=
  [n % 256, n / 256 % 256, n / 65536 % 256, n / 16777216 % 256]

/-- MD5 padding: a `0x80` byte, zeros to 56 mod 64, then the original
length in bits as 8 little-endian bytes. -/
def md5_pad (msg : List Nat) : List Nat :=
  let padlen := (119 - msg.length % 64) % 64
  msg ++ [128] ++ List.replicate padlen 0 ++ toLE8 (8 * msg.length % 2 ^ 64)

/-- The `g`-th little-endian 32-bit word of a 64-byte chunk. -/
def le_word (chunk : List Nat) (g : Nat) : Nat :=
  chunk.getD (4 * g) 0 + 256 * chunk.getD (4 * g + 1) 0 +
    65536 * chunk.getD (4 * g + 2) 0 + 16777216 * chunk.getD (4 * g + 3) 0

/-- One of the 64 MD5 rounds on the running `(a, b, c, d)` state. -/
def md5_step (M : Nat → Nat) (st : Nat × Nat × Nat × Nat) (i : Nat) :
    Nat × Nat × Nat × Nat :=
  let a := st.1
  let b := st.2.1
  let c := st.2.2.1
  let d := st.2.2.2
  let f :=
    if i < 16 then (b &&& c) ||| ((b ^^^ 4294967295) &&& d)
    else if i < 32 then (d &&& b) ||| ((d ^^^ 4294967295) &&& c)
    else if i < 48 then b ^^^ c ^^^ d
    else c ^^^ (b ||| (d ^^^ 4294967295))
  let g :=
    if i < 16 then i
    else if i < 32 then (5 * i + 1) % 16
    else if i < 48 then (3 * i + 5) % 16
    else 7 * i % 16
  let f2 := (f + a + md5_K.getD i 0 + M g) % 2 ^ 32
  (d, (b + rotl32 f2 (md5_s.getD i 0)) % 2 ^ 32, b, c)

/-- Process one 64-byte chunk: run the 64 rounds and add the result onto
the incoming state, word by word, modulo `2 ^ 32`. -/
def md5_process_chunk (chunk : List Nat) (h : Nat × Nat × Nat × Nat) :
    Nat × Nat × Nat × Nat :=
  let r := (List.range 64).foldl (md5_step (le_word chunk)) h
  ((h.1 + r.1) % 2 ^ 32, (h.2.1 + r.2.1) % 2 ^ 32,
   (h.2.2.1 + r.2.2.1) % 2 ^ 32, (h.2.2.2 + r.2.2.2) % 2 ^ 32)

/-- Fold the padded message 64 bytes at a time (`n` is the number of
64-byte chunks remaining). -/
def md5_chunks_loop : Nat → List Nat → Nat × Nat × Nat × Nat →
    Nat × Nat × Nat × Nat
  | 0, _, h => h
  | n + 1, bytes, h =>
    md5_chunks_loop n (bytes.drop 64) (md5_process_chunk (bytes.take 64) h)

/-- The 16-byte MD5 digest of a byte string. -/
def md5_digest_bytes (msg : List Nat) : List Nat :=
  let padded := md5_pad msg
  let h := md5_chunks_loop (padded.length / 64) padded
    (1732584193, 4023233417, 2562383102, 271733878)
  toLE4 h.1 ++ toLE4 h.2.1 ++ toLE4 h.2.2.1 ++ toLE4 h.2.2.2

/-- A lowercase hexadecimal digit, as used by `hexdigest()`. -/
def hex_lower (n : Nat) : Char :=
  if n < 10 then Char.ofNat (48 + n) else Char.ofNat (87 + n)

/-- Embedding of `hashlib.md5(msg).hexdigest()`: the digest as 32 lowercase hex
characters. -/
def md5_hexdigest (msg : List Nat) : String :=
  ⟨((md5_digest_bytes msg).map fun b => [hex_lower (b / 16), hex_lower (b % 16)]).flatten⟩

/-- The short id computed by the click endpoint:
`hashlib.md5(f"{deal_id}{x_anonymous_id}".encode()).hexdigest()[:8]`. -/
def click_short_id (deal_id : String) (x_anonymous_id : String) : String :=
  ⟨(md5_hexdigest (utf8_encode (deal_id ++ x_anonymous_id))).data.take 8⟩

/-- The response of `POST /deals/{deal_id}/click`: either an
`HTTPException` or a `DealClickResponse`. -/
inductive ClickResult where
  | httpError (status_code : Nat) (detail : String)
  | response (success : Bool) (short_id : String)
  deriving DecidableEq

/-- The click endpoint `record_deal_click(deal_id, x_anonymous_id)`: a missing or empty
(falsy) anonymous id is a 400 client error; otherwise the deterministic
8-character short id is returned. -/
def record_deal_click (deal_id : String) (x_anonymous_id : Option String) :
    ClickResult :=
  match x_anonymous_id with
  | none => .httpError 400 "Anonymous ID required"
  | some id =>
    if id = "" then .httpError 400 "Anonymous ID required"
    else .response true (click_short_id deal_id id)

/-! ### Helper lemmas about the click short id -/

lemma md5_digest_bytes_length (msg : List Nat) :
    (md5_digest_bytes msg).length = 16 := by
  unfold md5_digest_bytes toLE4
  simp

lemma md5_hexdigest_length (msg : List Nat) :
    (md5_hexdigest msg).length = 32 := by
  show (md5_hexdigest msg).data.length = 32
  unfold md5_hexdigest
  rw [List.length_flatten]
  have h : ∀ l : List Nat,
      ((l.map fun b => [hex_lower (b / 16), hex_lower (b % 16)]).map
        List.length).sum = 2 * l.length := by
    intro l
    induction l with
    | nil => rfl
    | cons x xs ih =>
      have h2 : ([hex_lower (x / 16), hex_lower (x % 16)]).length = 2 := rfl
      simp only [List.map_cons, List.sum_cons, h2, ih, List.length_cons]
      omega
  rw [h, md5_digest_bytes_length]

/-- C10: the click endpoint's token generation is deterministic — for any
deal id and any present (non-falsy) identity key, `record_deal_click`
returns the fixed function `click_short_id` of the pair, an 8-character
prefix of the MD5 hex digest, with no per-call randomness or timestamp. -/
theorem C10_click_deterministic (deal_id : String) (x_anonymous_id : String)
    (hid : x_anonymous_id ≠ "") :
    record_deal_click deal_id (some x_anonymous_id) =
      ClickResult.response true (click_short_id deal_id x_anonymous_id) ∧
    (click_short_id deal_id x_anonymous_id).length = 8 := by
  constructor
  · simp only [record_deal_click]
    rw [if_neg hid]
  · show (click_short_id deal_id x_anonymous_id).data.length = 8
    unfold click_short_id
    rw [List.length_take]
    have h32 : (md5_hexdigest (utf8_encode (deal_id ++ x_anonymous_id))).data.length = 32 :=
      md5_hexdigest_length _
    rw [h32]
    decide

/-- Witness for C10: two clicks by identity `"u1"` on deal `"deal1"`
produce the same 8-character short id. -/
theorem C10_witness :
    record_deal_click "deal1" (some "u1") =
      ClickResult.response true (click_short_id "deal1" "u1") ∧
    (click_short_id "deal1" "u1").length = 8 :=
  C10_click_deterministic "deal1" "u1" (by decide)

end BrainPlus
